import Mathlib

/-!
Shallow embedding of the debug-session protocol engine of mcp-dap-server.

The Go source keeps a `DAPClient` with a sequence counter (`dap.go`), one
typed request builder per DAP command, and per-tool receive loops that
classify incoming messages into responses and events (`tools.go`).  The
embedding models:
  * Go `int` as `Int` with 64-bit two's-complement wrap-around on the
    sequence-counter increment (`wrap64`);
  * the wire as a list of already-decoded messages (`DapMsg`); reading past
    the end of the list models a read error on the closed stream;
  * the outgoing half of the connection as the `sent` list accumulated in
    the client, so theorems can speak about what was put on the wire;
  * Go runtime panics (nil-pointer dereference, index out of range) as the
    `GoResult.panic` outcome.
-/

/-- Two's-complement wrap-around of Go's 64-bit `int` arithmetic. -/
def wrap64 (x : Int) : Int :=
  (x + 2 ^ 63) % 2 ^ 64 - 2 ^ 63

/-- Outcome of a Go function that can return normally, return an `error`,
or panic at runtime. -/
inductive GoResult (α : Type) where
  | ok (v : α)
  | err (msg : String)
  | panic (msg : String)
  deriving DecidableEq, Repr

/-- Command-specific argument payload attached to an outgoing request,
mirroring the `Arguments` field set by each typed request builder. -/
inductive RequestArgs where
  | empty
  | initializeArgs (adapterID pathFormat locale : String)
      (linesStartAt1 columnsStartAt1 supportsVariableType supportsVariablePaging
        supportsRunInTerminalRequest : Bool)
  | launch (mode program : String) (stopOnEntry : Bool)
  | cont (threadId : Int)
  | next (threadId : Int)
  | stepIn (threadId : Int)
  | stepOut (threadId : Int)
  | pause (threadId : Int)
  | threads
  | stackTrace (threadId startFrame levels : Int)
  | variables (variablesReference : Int)
  deriving DecidableEq, Repr

/-- An outgoing DAP request as built by `DAPClient.newRequest` plus the
arguments attached by the typed builder. -/
structure Request where
  reqType : String
  command : String
  seq : Int
  args : RequestArgs
  deriving DecidableEq, Repr

/-- Body of a `stopped` event (`dap.StoppedEventBody`), restricted to the
fields the bridge reads. -/
structure StoppedEventBody where
  reason : String
  threadId : Int
  hitBreakpointIds : List Int
  deriving DecidableEq, Repr

/-- One stack frame of a `stackTrace` response, restricted to the fields the
bridge formats; `source` is `none` when the frame has a nil `Source`. -/
structure StackFrame where
  id : Int
  name : String
  source : Option String
  line : Int
  column : Int
  presentationHint : String
  deriving DecidableEq, Repr

/-- A decoded incoming DAP message.  Concrete response types the Go code
type-switches on (`*dap.InitializeResponse`, `*dap.StackTraceResponse`,
`*dap.EvaluateResponse`) get their own constructors; `response` stands for
any other concrete response type, tagged with its command. -/
inductive DapMsg where
  | request (seq : Int) (command : String)
  | response (requestSeq : Int) (success : Bool) (message : String) (command : String)
  | initializeResponse (requestSeq : Int) (success : Bool) (message : String)
      (capabilities : String)
  | stackTraceResponse (requestSeq : Int) (success : Bool) (message : String)
      (frames : List StackFrame) (totalFrames : Int)
  | evaluateResponse (requestSeq : Int) (success : Bool) (message : String)
      (result : String) (typeStr : String)
  | stoppedEvent (body : StoppedEventBody)
  | terminatedEvent
  | otherEvent (event : String)
  deriving DecidableEq, Repr

namespace DapMsg

/-- `GetResponse()` of the `dap.ResponseMessage` interface: the correlating
request sequence number, success flag and failure message, available exactly
for response-kind messages. -/
def getResponse? : DapMsg → Option (Int × Bool × String)
  | .response rs succ msg _ => some (rs, succ, msg)
  | .initializeResponse rs succ msg _ => some (rs, succ, msg)
  | .stackTraceResponse rs succ msg _ _ => some (rs, succ, msg)
  | .evaluateResponse rs succ msg _ _ => some (rs, succ, msg)
  | _ => none

/-- Membership in the `dap.EventMessage` interface. -/
def isEventMessage : DapMsg → Bool
  | .stoppedEvent _ => true
  | .terminatedEvent => true
  | .otherEvent _ => true
  | _ => false

end DapMsg

/-- The DAP client state (`dap.go`): the sequence counter, plus the list of
requests written to the connection so far (the outgoing wire trace). -/
structure DAPClient where
  seq : Int
  sent : List Request
  deriving DecidableEq, Repr

/-- `newDAPClientFromConn`: a fresh client over a new connection; the
sequence counter starts at 1 to match VS Code numbering. -/
def newDAPClientFromConn : DAPClient :=
  { seq := 1, sent := [] }

/-- `(*DAPClient).newRequest`: builds a request carrying the current counter
value and increments the counter by one (Go `int` increment, hence with
64-bit wrap-around). -/
def newRequest (c : DAPClient) (command : String) : Request × DAPClient :=
  ({ reqType := "request", command := command, seq := c.seq, args := .empty },
   { c with seq := wrap64 (c.seq + 1) })

/-- `(*DAPClient).send`: writes one encoded request to the connection. -/
def DAPClient.send (c : DAPClient) (r : Request) : DAPClient :=
  { c with sent := c.sent ++ [r] }

/-- `InitializeRequest`: sends an `initialize` request with the fixed
arguments from the source. -/
def initializeRequest (c : DAPClient) : DAPClient :=
  let p := newRequest c "initialize"
  p.2.send { p.1 with
    args := .initializeArgs "go" "path" "en-us" true true true true true }

/-- `LaunchRequest`: sends a `launch` request with the given mode, program
and stop-on-entry flag. -/
def launchRequest (c : DAPClient) (mode program : String) (stopOnEntry : Bool) :
    DAPClient :=
  let p := newRequest c "launch"
  p.2.send { p.1 with args := .launch mode program stopOnEntry }

/-- `ContinueRequest`. -/
def continueRequest (c : DAPClient) (threadID : Int) : DAPClient :=
  let p := newRequest c "continue"
  p.2.send { p.1 with args := .cont threadID }

/-- `NextRequest`. -/
def nextRequest (c : DAPClient) (threadID : Int) : DAPClient :=
  let p := newRequest c "next"
  p.2.send { p.1 with args := .next threadID }

/-- `StepInRequest`. -/
def stepInRequest (c : DAPClient) (threadID : Int) : DAPClient :=
  let p := newRequest c "stepIn"
  p.2.send { p.1 with args := .stepIn threadID }

/-- `StepOutRequest`. -/
def stepOutRequest (c : DAPClient) (threadID : Int) : DAPClient :=
  let p := newRequest c "stepOut"
  p.2.send { p.1 with args := .stepOut threadID }

/-- `PauseRequest`. -/
def pauseRequest (c : DAPClient) (threadID : Int) : DAPClient :=
  let p := newRequest c "pause"
  p.2.send { p.1 with args := .pause threadID }

/-- `ThreadsRequest`. -/
def threadsRequest (c : DAPClient) : DAPClient :=
  let p := newRequest c "threads"
  p.2.send { p.1 with args := .threads }

/-- `StackTraceRequest`: sends a `stackTrace` request carrying thread id,
start frame and level count. -/
def stackTraceRequest (c : DAPClient) (threadID startFrame levels : Int) :
    DAPClient :=
  let p := newRequest c "stackTrace"
  p.2.send { p.1 with args := .stackTrace threadID startFrame levels }

/-- `VariablesRequest`. -/
def variablesRequest (c : DAPClient) (variablesReference : Int) : DAPClient :=
  let p := newRequest c "variables"
  p.2.send { p.1 with args := .variables variablesReference }

/-- Allocate and send one request per command in the list, in order,
returning the built requests and the final client; captures the sequencing
behaviour shared by all typed request builders (each one calls `newRequest`
exactly once and then `send`). -/
def buildRequests : DAPClient → List String → List Request × DAPClient
  | c, [] => ([], c)
  | c, command :: rest =>
    let p := newRequest c command
    let tail := buildRequests (p.2.send p.1) rest
    (p.1 :: tail.1, tail.2)

/-- `readAndValidateResponse` (`tools.go`): reads messages in a loop; the
first message implementing `dap.ResponseMessage` decides the outcome (error
with the given text on a failed response, normal return on success); events
and any other message kinds are passed over and the loop continues.  The
leftover stream is returned so callers can keep reading.  Reading past the
end of the stream models a decode error on the closed connection. -/
def readAndValidateResponse (errText : String) :
    List DapMsg → GoResult (List DapMsg)
  | [] => .err "EOF"
  | m :: rest =>
    match m.getResponse? with
    | some (_, succ, msg) =>
      if succ then .ok rest else .err (errText ++ ": " ++ msg)
    | none => readAndValidateResponse errText rest

/-- `formatStoppedResponse` (`tools.go`): renders the body of a `stopped`
event.  For a breakpoint reason the source indexes `HitBreakpointIds[0]`
without a bounds check; `none` models the resulting index-out-of-range
panic when the list is empty. -/
def formatStoppedResponse (msg : StoppedEventBody) : Option String :=
  if msg.reason = "breakpoint" ∨ msg.reason = "function breakpoint" then
    match msg.hitBreakpointIds with
    | [] => none
    | bp :: _ =>
      some ("Program stopped as a result of hitting breakpoint " ++ toString bp
        ++ " hit by thread " ++ toString msg.threadId)
  else
    some "Program stopped for unknown reason."

/-- The shared receive loop of `continueExecution`, `nextStep`, `stepIn` and
`stepOut` (`tools.go`), which differ only in their three strings: a failed
response aborts with `failText`, a successful response is swallowed and the
loop continues, a `stopped` event returns `okPre` plus the formatted stop
description (propagating the formatting panic), a `terminated` event
returns `termText`, and anything else keeps looping. -/
def execLoop (failText okPre termText : String) :
    List DapMsg → GoResult (String × List DapMsg)
  | [] => .err "EOF"
  | m :: rest =>
    match m.getResponse? with
    | some (_, succ, msg) =>
      if succ then execLoop failText okPre termText rest
      else .err (failText ++ ": " ++ msg)
    | none =>
      match m with
      | .stoppedEvent body =>
        match formatStoppedResponse body with
        | some desc => .ok (okPre ++ desc, rest)
        | none => .panic "runtime error: index out of range [0] with length 0"
      | .terminatedEvent => .ok (termText, rest)
      | _ => execLoop failText okPre termText rest

/-- A message the execution-control loop passes over without ending the
wait: a successful response, an event other than stopped or terminated, or
a non-response non-event message. -/
def execSkippable (m : DapMsg) : Bool :=
  match m.getResponse? with
  | some (_, succ, _) => succ
  | none =>
    match m with
    | .stoppedEvent _ => false
    | .terminatedEvent => false
    | _ => true

/-- Formats one stack frame the way `getStackTrace` does. -/
def formatFrame (i : Nat) (f : StackFrame) : String :=
  let s := "\n#" ++ toString i ++ " (Frame ID: " ++ toString f.id ++ ") " ++ f.name
  let s :=
    match f.source with
    | some path =>
      if path ≠ "" then
        s ++ "\n   at " ++ path ++ ":" ++ toString f.line
          ++ (if f.column > 0 then ":" ++ toString f.column else "")
      else s
    | none => s
  let s := if f.presentationHint = "subtle" then s ++ " (runtime)" else s
  s ++ "\n"

/-- Formats a whole stack-trace response body the way `getStackTrace` does. -/
def formatStackTrace (threadID : Int) (frames : List StackFrame)
    (totalFrames : Int) : String :=
  "Stack trace for thread " ++ toString threadID ++ ":\n"
    ++ String.join (frames.enum.map (fun p => formatFrame p.1 p.2))
    ++ "\nTotal frames: " ++ toString totalFrames

/-- The receive loop of `getStackTrace`: a `StackTraceResponse` decides the
outcome, events are passed over, a response of any other concrete type is
an error, and any other message kind is an unexpected-type error. -/
def stackTraceLoop (threadID : Int) :
    List DapMsg → GoResult (String × List DapMsg)
  | [] => .err "EOF"
  | m :: rest =>
    match m with
    | .stackTraceResponse _ succ msg frames total =>
      if succ then .ok (formatStackTrace threadID frames total, rest)
      else .err ("unable to get stack trace: " ++ msg)
    | .stoppedEvent _ => stackTraceLoop threadID rest
    | .terminatedEvent => stackTraceLoop threadID rest
    | .otherEvent _ => stackTraceLoop threadID rest
    | .response _ succ msg _ =>
      if succ then .err "received generic response instead of StackTraceResponse"
      else .err ("unable to get stack trace: " ++ msg)
    | .initializeResponse _ succ msg _ =>
      if succ then .err "received generic response instead of StackTraceResponse"
      else .err ("unable to get stack trace: " ++ msg)
    | .evaluateResponse _ succ msg _ _ =>
      if succ then .err "received generic response instead of StackTraceResponse"
      else .err ("unable to get stack trace: " ++ msg)
    | .request _ _ => .err "unexpected response type"

/-- The session state shared by all tool handlers (`debuggerSession` in
`tools.go`): the debugger subprocess handle and the DAP client, each
present or absent. -/
structure DebuggerSession where
  cmd : Option Unit
  client : Option DAPClient
  deriving DecidableEq, Repr

/-- Outcome of `cmd.Process.Kill()` in `stopDebugger`: success, failure
because the process already exited (tolerated), or any other error. -/
inductive KillOutcome where
  | success
  | alreadyFinished
  | otherErr (msg : String)
  deriving DecidableEq, Repr

/-- Go's `strings.HasPrefix`, as a character-list prefix test. -/
def goHasPrefix (s pat : String) : Bool :=
  pat.data.isPrefixOf s.data

/-- The literal readiness line `startDebugger` scans for on the debugger
subprocess's standard output. -/
def readyLit : String := "DAP server listening at"

/-- The readiness scan of `startDebugger`: read stdout line by line until a
line starting with the readiness text appears; exhausting the stream models
the read error that makes `startDebugger` give up. -/
def waitForReady : List String → Bool
  | [] => false
  | s :: rest => if goHasPrefix s readyLit then true else waitForReady rest

/-- `startDebugger` (`tools.go`): normalizes the port, spawns the debugger
subprocess (recorded by setting `cmd` before anything is read), scans
stdout for the readiness line, and only then connects, sends the
`initialize` request and reads the capabilities response.  If stdout ends
before the readiness line, the read error is returned and no connection is
opened (the `client` field is left untouched). -/
def startDebugger (ds : DebuggerSession) (port : String)
    (stdoutLines : List String) (stream : List DapMsg) :
    DebuggerSession × GoResult (String × List DapMsg) :=
  let port := if goHasPrefix port ":" then port else ":" ++ port
  let ds := { ds with cmd := some () }
  if waitForReady stdoutLines then
    let c := initializeRequest newDAPClientFromConn
    let ds := { ds with client := some c }
    match stream with
    | [] => (ds, .err "EOF")
    | m :: rest =>
      match m with
      | .initializeResponse _ _ _ caps =>
        (ds, .ok ("Started debugger at: " ++ port
          ++ "\n\nServer Capabilities:\n" ++ caps, rest))
      | _ => (ds, .err "unexpected response type")
  else
    (ds, .err "EOF")

/-- `stopDebugger` (`tools.go`): with no subprocess handle it reports that
nothing is running and leaves the session untouched; otherwise it closes
and clears the client, kills the subprocess (tolerating an
already-finished process), waits, and clears the subprocess handle. -/
def stopDebugger (ds : DebuggerSession) (kill : KillOutcome) :
    DebuggerSession × GoResult String :=
  match ds.cmd with
  | none => (ds, .ok "No debugger currently executing.")
  | some _ =>
    let ds1 : DebuggerSession := { ds with client := none }
    match kill with
    | .otherErr e => (ds1, .err e)
    | _ => ({ ds1 with cmd := none }, .ok "Debugger stopped.")

/-- `debugProgram` (`tools.go`): sends a `launch` request in `debug` mode
and validates the response.  The source dereferences `ds.client` without a
nil check, so with no client the call panics instead of returning a
not-connected error. -/
def debugProgram (ds : DebuggerSession) (path : String)
    (stream : List DapMsg) : DebuggerSession × GoResult (String × List DapMsg) :=
  match ds.client with
  | none =>
    (ds, .panic "runtime error: invalid memory address or nil pointer dereference")
  | some c =>
    let c := launchRequest c "debug" path true
    let ds := { ds with client := some c }
    match readAndValidateResponse
        "unable to launch program to debug via DAP server" stream with
    | .ok rest => (ds, .ok ("Started debugging: " ++ path, rest))
    | .err e => (ds, .err e)
    | .panic p => (ds, .panic p)

/-- `execProgram` (`tools.go`): same as `debugProgram` but in `exec` mode;
it has the same missing nil-client check. -/
def execProgram (ds : DebuggerSession) (path : String)
    (stream : List DapMsg) : DebuggerSession × GoResult (String × List DapMsg) :=
  match ds.client with
  | none =>
    (ds, .panic "runtime error: invalid memory address or nil pointer dereference")
  | some c =>
    let c := launchRequest c "exec" path true
    let ds := { ds with client := some c }
    match readAndValidateResponse
        "unable to exec program to debug via DAP server" stream with
    | .ok rest => (ds, .ok ("Started debugging: " ++ path, rest))
    | .err e => (ds, .err e)
    | .panic p => (ds, .panic p)

/-- `continueExecution` (`tools.go`): guarded by the nil-client check, sends
`continue`, then runs the execution-control receive loop. -/
def continueExecution (ds : DebuggerSession) (threadID : Int)
    (stream : List DapMsg) : DebuggerSession × GoResult (String × List DapMsg) :=
  match ds.client with
  | none => (ds, .err "debugger not started")
  | some c =>
    let c := continueRequest c threadID
    ({ ds with client := some c },
      execLoop "unable to continue" "Continued execution...\n"
        "Continued execution to program termination" stream)

/-- `nextStep` (`tools.go`). -/
def nextStep (ds : DebuggerSession) (threadID : Int)
    (stream : List DapMsg) : DebuggerSession × GoResult (String × List DapMsg) :=
  match ds.client with
  | none => (ds, .err "debugger not started")
  | some c =>
    let c := nextRequest c threadID
    ({ ds with client := some c },
      execLoop "unable to step to next line" "Stepped to next line...\n"
        "Stepped to program termination" stream)

/-- `stepIn` (`tools.go`). -/
def stepIn (ds : DebuggerSession) (threadID : Int)
    (stream : List DapMsg) : DebuggerSession × GoResult (String × List DapMsg) :=
  match ds.client with
  | none => (ds, .err "debugger not started")
  | some c =>
    let c := stepInRequest c threadID
    ({ ds with client := some c },
      execLoop "unable to step into function" "Stepped into function...\n"
        "Stepped to program termination" stream)

/-- `stepOut` (`tools.go`). -/
def stepOut (ds : DebuggerSession) (threadID : Int)
    (stream : List DapMsg) : DebuggerSession × GoResult (String × List DapMsg) :=
  match ds.client with
  | none => (ds, .err "debugger not started")
  | some c =>
    let c := stepOutRequest c threadID
    ({ ds with client := some c },
      execLoop "unable to step out of function" "Stepped out of function...\n"
        "Stepped to program termination" stream)

/-- `pauseExecution` (`tools.go`): sends `pause` and then waits with
`readAndValidateResponse`, so events, including stopped and terminated
ones, are passed over uninspected and the first response decides. -/
def pauseExecution (ds : DebuggerSession) (threadID : Int)
    (stream : List DapMsg) : DebuggerSession × GoResult (String × List DapMsg) :=
  match ds.client with
  | none => (ds, .err "debugger not started")
  | some c =>
    let c := pauseRequest c threadID
    let ds := { ds with client := some c }
    match readAndValidateResponse "unable to pause execution" stream with
    | .ok rest => (ds, .ok ("Paused execution", rest))
    | .err e => (ds, .err e)
    | .panic p => (ds, .panic p)

/-- `listThreads` (`tools.go`): sends `threads` and reads exactly one
message; only a response-kind message is accepted, anything else is an
unexpected-response-type error. -/
def listThreads (ds : DebuggerSession) (stream : List DapMsg) :
    DebuggerSession × GoResult (String × List DapMsg) :=
  match ds.client with
  | none => (ds, .err "debugger not started")
  | some c =>
    let c := threadsRequest c
    let ds := { ds with client := some c }
    match stream with
    | [] => (ds, .err "EOF")
    | m :: rest =>
      match m.getResponse? with
      | some (_, succ, msg) =>
        if succ then (ds, .ok ("Retrieved thread list", rest))
        else (ds, .err ("unable to get threads: " ++ msg))
      | none => (ds, .err "unexpected response type")

/-- `getVariables` (`tools.go`): sends `variables` and reads exactly one
message, accepting only a response-kind message. -/
def getVariables (ds : DebuggerSession) (variablesReference : Int)
    (stream : List DapMsg) : DebuggerSession × GoResult (String × List DapMsg) :=
  match ds.client with
  | none => (ds, .err "debugger not started")
  | some c =>
    let c := variablesRequest c variablesReference
    let ds := { ds with client := some c }
    match stream with
    | [] => (ds, .err "EOF")
    | m :: rest =>
      match m.getResponse? with
      | some (_, succ, msg) =>
        if succ then (ds, .ok ("Retrieved variables", rest))
        else (ds, .err ("unable to get variables: " ++ msg))
      | none => (ds, .err "unexpected response type")

/-- `getStackTrace` (`tools.go`): defaults a zero `Levels` argument to 20,
sends `stackTrace` and runs the stack-trace receive loop. -/
def getStackTrace (ds : DebuggerSession) (threadID startFrame levels : Int)
    (stream : List DapMsg) : DebuggerSession × GoResult (String × List DapMsg) :=
  match ds.client with
  | none => (ds, .err "debugger not started")
  | some c =>
    let lv := if levels = 0 then 20 else levels
    let c := stackTraceRequest c threadID startFrame lv
    ({ ds with client := some c }, stackTraceLoop threadID stream)

/-- The sequence numbers a client has put on the wire. -/
def clientSentSeqs (c : DAPClient) : List Int :=
  c.sent.map (fun r => r.seq)

/-- `wrap64` is the identity on values already in the 64-bit signed range. -/
theorem wrap64_eq_self (x : Int) (hlo : -(2 ^ 63) ≤ x) (hhi : x < 2 ^ 63) :
    wrap64 x = x := by
  unfold wrap64
  omega

/-- `wrap64` lands in the 64-bit signed range. -/
theorem wrap64_mem_range (x : Int) :
    -(2 ^ 63) ≤ wrap64 x ∧ wrap64 x < 2 ^ 63 := by
  unfold wrap64
  omega

/-- `wrap64` is idempotent. -/
theorem wrap64_idem (x : Int) : wrap64 (wrap64 x) = wrap64 x := by
  obtain ⟨h1, h2⟩ := wrap64_mem_range x
  exact wrap64_eq_self _ h1 h2

/-- Adding after wrapping agrees with wrapping the plain sum. -/
theorem wrap64_add_congr (a b : Int) : wrap64 (wrap64 a + b) = wrap64 (a + b) := by
  unfold wrap64
  omega

/-- From a client whose stored counter is already in 64-bit range, building
requests for a command list emits the counter values in order. -/
theorem buildRequests_seqs (cmds : List String) :
    ∀ c : DAPClient, wrap64 c.seq = c.seq →
      (buildRequests c cmds).1.map (fun r => r.seq)
        = (List.range cmds.length).map (fun i : Nat => wrap64 (c.seq + (i : Int))) := by
  induction cmds with
  | nil => intro c _; simp [buildRequests]
  | cons cmd rest ih =>
    intro c h
    have hstep :
        (buildRequests ((newRequest c cmd).2.send (newRequest c cmd).1) rest).1.map
            (fun r => r.seq)
          = (List.range rest.length).map
              (fun i : Nat => wrap64 (wrap64 (c.seq + 1) + (i : Int))) := by
      have := ih ((newRequest c cmd).2.send (newRequest c cmd).1)
        (by simp [newRequest, DAPClient.send, wrap64_idem])
      simpa [newRequest, DAPClient.send] using this
    simp only [buildRequests, List.map_cons, List.length_cons, hstep,
      List.range_succ_eq_map, List.map_map]
    congr 1
    · simpa [newRequest] using h.symm
    · apply List.map_congr_left
      intro i _
      simp only [Function.comp_apply, wrap64_add_congr]
      congr 1
      push_cast
      ring

/-- The validation loop passes over any leading run of non-response
messages. -/
theorem readAndValidateResponse_append (errText : String) (pre rest : List DapMsg)
    (h : ∀ m ∈ pre, m.getResponse? = none) :
    readAndValidateResponse errText (pre ++ rest)
      = readAndValidateResponse errText rest := by
  induction pre with
  | nil => rfl
  | cons m pre ih =>
    have hm : m.getResponse? = none := h m (by simp)
    rw [List.cons_append]
    simp only [readAndValidateResponse, hm]
    exact ih (fun m' hm' => h m' (by simp [hm']))

/-- The execution-control loop passes over any leading run of skippable
messages. -/
theorem execLoop_append (failText okPre termText : String) (pre rest : List DapMsg)
    (h : ∀ m ∈ pre, execSkippable m = true) :
    execLoop failText okPre termText (pre ++ rest)
      = execLoop failText okPre termText rest := by
  induction pre with
  | nil => rfl
  | cons m pre ih =>
    have hm : execSkippable m = true := h m (by simp)
    have ihr := ih (fun m' hm' => h m' (by simp [hm']))
    rw [List.cons_append]
    cases m with
    | response rs succ msg cmdStr =>
      have : succ = true := by
        simpa [execSkippable, DapMsg.getResponse?] using hm
      subst this
      simpa [execLoop, DapMsg.getResponse?] using ihr
    | initializeResponse rs succ msg caps =>
      have : succ = true := by
        simpa [execSkippable, DapMsg.getResponse?] using hm
      subst this
      simpa [execLoop, DapMsg.getResponse?] using ihr
    | stackTraceResponse rs succ msg frames total =>
      have : succ = true := by
        simpa [execSkippable, DapMsg.getResponse?] using hm
      subst this
      simpa [execLoop, DapMsg.getResponse?] using ihr
    | evaluateResponse rs succ msg res ty =>
      have : succ = true := by
        simpa [execSkippable, DapMsg.getResponse?] using hm
      subst this
      simpa [execLoop, DapMsg.getResponse?] using ihr
    | stoppedEvent body =>
      simp [execSkippable, DapMsg.getResponse?] at hm
    | terminatedEvent =>
      simp [execSkippable, DapMsg.getResponse?] at hm
    | otherEvent ev =>
      simpa [execLoop, DapMsg.getResponse?] using ihr
    | request s cmdStr =>
      simpa [execLoop, DapMsg.getResponse?] using ihr

/-- The readiness scan succeeds exactly when some stdout line carries the
readiness text. -/
theorem waitForReady_iff (lines : List String) :
    waitForReady lines = true ↔ ∃ l ∈ lines, goHasPrefix l readyLit = true := by
  induction lines with
  | nil => simp [waitForReady]
  | cons s rest ih =>
    by_cases hs : goHasPrefix s readyLit = true
    · simp [waitForReady, hs]
    · simp only [waitForReady, Bool.ite_eq_true_distrib]
      simp [hs, ih]

/-- C1, counterexample: the awaited request is allocated sequence number 1,
yet the correlation loop accepts a response carrying the never-issued
sequence number 999 and returns success instead of failing with a
protocol-desync error. -/
theorem stale_response_accepted :
    (newRequest newDAPClientFromConn "launch").1.seq = 1
    ∧ readAndValidateResponse "unable to launch program to debug via DAP server"
        [DapMsg.response 999 true "" "launch"] = .ok [] :=
  ⟨rfl, rfl⟩

/-- C1, amended: the correlation loop returns at the first response-kind
message regardless of its sequence number — success ends the wait normally
and failure produces an error carrying the response message; no
sequence-number comparison or desync error exists. -/
theorem first_response_decides (errText : String) (pre rest : List DapMsg)
    (rs : Int) (msg cmdStr : String)
    (h : ∀ m ∈ pre, m.getResponse? = none) :
    readAndValidateResponse errText
        (pre ++ DapMsg.response rs true msg cmdStr :: rest) = .ok rest
    ∧ readAndValidateResponse errText
        (pre ++ DapMsg.response rs false msg cmdStr :: rest)
        = .err (errText ++ ": " ++ msg) := by
  constructor <;>
    rw [readAndValidateResponse_append _ _ _ h] <;>
    simp [readAndValidateResponse, DapMsg.getResponse?]

/-- Witness for C1's amended theorem at a concrete interleaving. -/
theorem first_response_decides_witness :
    (∀ m ∈ [DapMsg.otherEvent "output"], m.getResponse? = none)
    ∧ (readAndValidateResponse "unable to pause execution"
          ([DapMsg.otherEvent "output"]
            ++ DapMsg.response 999 true "boom" "pause" :: []) = .ok []
        ∧ readAndValidateResponse "unable to pause execution"
          ([DapMsg.otherEvent "output"]
            ++ DapMsg.response 999 false "boom" "pause" :: [])
          = .err ("unable to pause execution" ++ ": " ++ "boom")) :=
  ⟨by decide, first_response_decides _ _ _ _ _ _ (by decide)⟩

/-- C2: starting from a fresh connection, issuing one request per command
puts exactly the sequence numbers 1, 2, ..., N on the wire in issuance
order — no gaps, no repeats, no reordering (stated up to the 64-bit range
of Go's `int` counter). -/
theorem wire_seqs_one_to_n (cmds : List String)
    (h : (cmds.length : Int) ≤ 2 ^ 63 - 1) :
    (buildRequests newDAPClientFromConn cmds).1.map (fun r => r.seq)
      = (List.range cmds.length).map (fun i : Nat => (i : Int) + 1) := by
  have h1 : wrap64 newDAPClientFromConn.seq = newDAPClientFromConn.seq := by
    decide
  rw [buildRequests_seqs cmds newDAPClientFromConn h1]
  apply List.map_congr_left
  intro i hi
  have hi2 : i < cmds.length := List.mem_range.mp hi
  have hi3 : (i : Int) < (cmds.length : Int) := by exact_mod_cast hi2
  have : wrap64 (newDAPClientFromConn.seq + (i : Int)) = 1 + (i : Int) := by
    show wrap64 (1 + (i : Int)) = 1 + (i : Int)
    apply wrap64_eq_self <;> omega
  rw [this]
  ring

/-- Witness for C2 at three concrete commands. -/
theorem wire_seqs_one_to_n_witness :
    ((["initialize", "launch", "threads"] : List String).length : Int) ≤ 2 ^ 63 - 1
    ∧ (buildRequests newDAPClientFromConn ["initialize", "launch", "threads"]).1.map
        (fun r => r.seq)
      = (List.range (["initialize", "launch", "threads"] : List String).length).map
          (fun i : Nat => (i : Int) + 1) :=
  ⟨by decide, wire_seqs_one_to_n _ (by decide)⟩

/-- C3: invoked with no client connected, `debugProgram` and `execProgram`
dereference the nil client and panic instead of returning the
not-connected error that the guarded operations, here `continueExecution`,
return. -/
theorem launch_tools_nil_client_panic :
    debugProgram { cmd := none, client := none } "/tmp/prog" []
      = ({ cmd := none, client := none },
         .panic "runtime error: invalid memory address or nil pointer dereference")
    ∧ execProgram { cmd := none, client := none } "/tmp/prog" []
      = ({ cmd := none, client := none },
         .panic "runtime error: invalid memory address or nil pointer dereference")
    ∧ continueExecution { cmd := none, client := none } 1 []
      = ({ cmd := none, client := none }, .err "debugger not started") :=
  ⟨rfl, rfl, rfl⟩

/-- C4, counterexample: with a connected client, a single intervening event
before the variables response makes `getVariables` fail with an
unexpected-response-type error instead of skipping the event and returning
the response. -/
theorem get_variables_event_error :
    (getVariables { cmd := some (), client := some newDAPClientFromConn } 5
        [DapMsg.otherEvent "output", DapMsg.response 2 true "" "variables"]).2
      = .err "unexpected response type" :=
  rfl

/-- C4, amended: the single-read state-inspection queries, here
`getVariables` and `listThreads`, read exactly one message and fail with an
unexpected-response-type error whenever an event arrives before the
response; they do not loop. -/
theorem single_read_query_fails_on_event (cm : Option Unit) (c : DAPClient)
    (ref : Int) (m : DapMsg) (rest : List DapMsg)
    (h : m.isEventMessage = true) :
    (getVariables ⟨cm, some c⟩ ref (m :: rest)).2 = .err "unexpected response type"
    ∧ (listThreads ⟨cm, some c⟩ (m :: rest)).2 = .err "unexpected response type" := by
  have hr : m.getResponse? = none := by
    cases m <;> simp_all [DapMsg.isEventMessage, DapMsg.getResponse?]
  constructor <;> simp [getVariables, listThreads, hr]

/-- Witness for C4's amended theorem at a concrete event. -/
theorem single_read_query_fails_on_event_witness :
    DapMsg.terminatedEvent.isEventMessage = true
    ∧ ((getVariables ⟨some (), some newDAPClientFromConn⟩ 1
          [DapMsg.terminatedEvent]).2 = .err "unexpected response type"
        ∧ (listThreads ⟨some (), some newDAPClientFromConn⟩
          [DapMsg.terminatedEvent]).2 = .err "unexpected response type") :=
  ⟨rfl, single_read_query_fails_on_event _ _ _ _ _ rfl⟩

/-- C5, counterexample: `pauseExecution` waits with the validation loop, so
a terminated event does not end the wait with a terminal-success result;
it is skipped uninspected, the following response is consumed, and the
plain paused result is returned. -/
theorem pause_skips_terminated_event :
    (pauseExecution { cmd := some (), client := some newDAPClientFromConn } 1
        [DapMsg.terminatedEvent, DapMsg.response 2 true "" "pause"]).2
      = .ok ("Paused execution", []) :=
  rfl

/-- C5, amended: for continue, next, step-in and step-out the wait loop
inspects events — after any run of skippable messages, a stopped event
ends the wait with the reason-coded stop description and a terminated
event ends it with the operation's terminal-success text; pause is the
exception (see the counterexample). -/
theorem exec_control_event_outcomes (cm : Option Unit) (c : DAPClient)
    (tid : Int) (pre rest : List DapMsg) (body : StoppedEventBody) (desc : String)
    (hpre : ∀ m ∈ pre, execSkippable m = true)
    (hdesc : formatStoppedResponse body = some desc) :
    (continueExecution ⟨cm, some c⟩ tid (pre ++ DapMsg.stoppedEvent body :: rest)).2
        = .ok ("Continued execution...\n" ++ desc, rest)
    ∧ (nextStep ⟨cm, some c⟩ tid (pre ++ DapMsg.stoppedEvent body :: rest)).2
        = .ok ("Stepped to next line...\n" ++ desc, rest)
    ∧ (stepIn ⟨cm, some c⟩ tid (pre ++ DapMsg.stoppedEvent body :: rest)).2
        = .ok ("Stepped into function...\n" ++ desc, rest)
    ∧ (stepOut ⟨cm, some c⟩ tid (pre ++ DapMsg.stoppedEvent body :: rest)).2
        = .ok ("Stepped out of function...\n" ++ desc, rest)
    ∧ (continueExecution ⟨cm, some c⟩ tid (pre ++ DapMsg.terminatedEvent :: rest)).2
        = .ok ("Continued execution to program termination", rest)
    ∧ (nextStep ⟨cm, some c⟩ tid (pre ++ DapMsg.terminatedEvent :: rest)).2
        = .ok ("Stepped to program termination", rest)
    ∧ (stepIn ⟨cm, some c⟩ tid (pre ++ DapMsg.terminatedEvent :: rest)).2
        = .ok ("Stepped to program termination", rest)
    ∧ (stepOut ⟨cm, some c⟩ tid (pre ++ DapMsg.terminatedEvent :: rest)).2
        = .ok ("Stepped to program termination", rest) := by
  refine ⟨?_, ?_, ?_, ?_, ?_, ?_, ?_, ?_⟩ <;>
    simp [continueExecution, nextStep, stepIn, stepOut,
      execLoop_append _ _ _ _ _ hpre, execLoop, DapMsg.getResponse?, hdesc]

/-- Witness for C5's amended theorem at a concrete breakpoint stop. -/
theorem exec_control_event_outcomes_witness :
    (∀ m ∈ ([] : List DapMsg), execSkippable m = true)
    ∧ formatStoppedResponse ⟨"breakpoint", 7, [3]⟩
        = some "Program stopped as a result of hitting breakpoint 3 hit by thread 7"
    ∧ ((continueExecution ⟨some (), some newDAPClientFromConn⟩ 7
          ([] ++ DapMsg.stoppedEvent ⟨"breakpoint", 7, [3]⟩ :: [])).2
        = .ok ("Continued execution...\n"
            ++ "Program stopped as a result of hitting breakpoint 3 hit by thread 7", [])
      ∧ (nextStep ⟨some (), some newDAPClientFromConn⟩ 7
          ([] ++ DapMsg.stoppedEvent ⟨"breakpoint", 7, [3]⟩ :: [])).2
        = .ok ("Stepped to next line...\n"
            ++ "Program stopped as a result of hitting breakpoint 3 hit by thread 7", [])
      ∧ (stepIn ⟨some (), some newDAPClientFromConn⟩ 7
          ([] ++ DapMsg.stoppedEvent ⟨"breakpoint", 7, [3]⟩ :: [])).2
        = .ok ("Stepped into function...\n"
            ++ "Program stopped as a result of hitting breakpoint 3 hit by thread 7", [])
      ∧ (stepOut ⟨some (), some newDAPClientFromConn⟩ 7
          ([] ++ DapMsg.stoppedEvent ⟨"breakpoint", 7, [3]⟩ :: [])).2
        = .ok ("Stepped out of function...\n"
            ++ "Program stopped as a result of hitting breakpoint 3 hit by thread 7", [])
      ∧ (continueExecution ⟨some (), some newDAPClientFromConn⟩ 7
          ([] ++ DapMsg.terminatedEvent :: [])).2
        = .ok ("Continued execution to program termination", [])
      ∧ (nextStep ⟨some (), some newDAPClientFromConn⟩ 7
          ([] ++ DapMsg.terminatedEvent :: [])).2
        = .ok ("Stepped to program termination", [])
      ∧ (stepIn ⟨some (), some newDAPClientFromConn⟩ 7
          ([] ++ DapMsg.terminatedEvent :: [])).2
        = .ok ("Stepped to program termination", [])
      ∧ (stepOut ⟨some (), some newDAPClientFromConn⟩ 7
          ([] ++ DapMsg.terminatedEvent :: [])).2
        = .ok ("Stepped to program termination", [])) :=
  ⟨by simp, rfl,
    exec_control_event_outcomes (some ()) newDAPClientFromConn 7 [] []
      ⟨"breakpoint", 7, [3]⟩ _ (by simp) rfl⟩

/-- C6: on a stopped event whose reason is a breakpoint reason but whose
hit-breakpoint-id list is empty, the stop-description formatter indexes
out of bounds (modelled as `none`) instead of producing a generic
description; the formatter is not total. -/
theorem stopped_formatter_empty_hit_list_panics :
    formatStoppedResponse
        { reason := "breakpoint", threadId := 1, hitBreakpointIds := [] } = none :=
  rfl

/-- C7, counterexample: the initialize request of the first connection is
sent with sequence number 1; after stopping and starting again on the same
session object, the new connection's first request is again sent with
sequence number 1, so a sequence number is reused across a reconnect. -/
theorem seq_reused_across_reconnect :
    ((startDebugger ⟨none, none⟩ ":8080"
          ["DAP server listening at 127.0.0.1:8080"]
          [DapMsg.initializeResponse 1 true "" "caps"]).1.client.map clientSentSeqs
        = some [1])
    ∧ (((startDebugger
            (stopDebugger
              (startDebugger ⟨none, none⟩ ":8080"
                ["DAP server listening at 127.0.0.1:8080"]
                [DapMsg.initializeResponse 1 true "" "caps"]).1
              KillOutcome.success).1
            ":8080" ["DAP server listening at 127.0.0.1:8080"]
            [DapMsg.initializeResponse 1 true "" "caps"]).1.client.map clientSentSeqs)
        = some [1]) := by
  exact ⟨by decide, by decide⟩

/-- C7, amended: within one connection the counter never repeats — the
requests built over a single client carry pairwise-distinct sequence
numbers (within the 64-bit range); uniqueness across reconnects fails
because each new connection restarts the counter at 1 (see the
counterexample). -/
theorem seqs_nodup_within_connection (c : DAPClient) (cmds : List String)
    (h1 : wrap64 c.seq = c.seq)
    (h2 : c.seq + (cmds.length : Int) ≤ 2 ^ 63) :
    ((buildRequests c cmds).1.map (fun r => r.seq)).Nodup := by
  rw [buildRequests_seqs cmds c h1]
  have hlo : -(2 ^ 63 : Int) ≤ c.seq := by
    have := wrap64_mem_range c.seq
    omega
  have hpt : ∀ i ∈ List.range cmds.length,
      wrap64 (c.seq + (i : Int)) = c.seq + (i : Int) := by
    intro i hi
    have hi2 : i < cmds.length := List.mem_range.mp hi
    have hi3 : (i : Int) < (cmds.length : Int) := by exact_mod_cast hi2
    apply wrap64_eq_self <;> omega
  rw [List.map_congr_left hpt]
  refine List.Nodup.map ?_ (List.nodup_range _)
  intro a b hab
  have : c.seq + (a : Int) = c.seq + (b : Int) := hab
  omega

/-- Witness for C7's amended theorem on a fresh connection. -/
theorem seqs_nodup_within_connection_witness :
    wrap64 newDAPClientFromConn.seq = newDAPClientFromConn.seq
    ∧ newDAPClientFromConn.seq
        + ((["initialize", "launch"] : List String).length : Int) ≤ 2 ^ 63
    ∧ ((buildRequests newDAPClientFromConn ["initialize", "launch"]).1.map
        (fun r => r.seq)).Nodup :=
  ⟨by decide, by decide,
    seqs_nodup_within_connection _ _ (by decide) (by decide)⟩

/-- C8: `startDebugger` connects only after observing a readiness line —
if no stdout line carries the readiness text, the read error is returned
with the subprocess spawned but the client field untouched, so no
connection is opened; and whenever the readiness scan succeeds, some
stdout line does carry the readiness text. -/
theorem connect_only_after_ready (ds : DebuggerSession) (port : String)
    (stdoutLines : List String) (stream : List DapMsg) :
    ((∀ l ∈ stdoutLines, goHasPrefix l readyLit = false) →
      startDebugger ds port stdoutLines stream
        = ({ ds with cmd := some () }, .err "EOF"))
    ∧ (waitForReady stdoutLines = true →
        ∃ l ∈ stdoutLines, goHasPrefix l readyLit = true) := by
  constructor
  · intro h
    have hw : waitForReady stdoutLines = false := by
      rw [← Bool.not_eq_true, waitForReady_iff]
      rintro ⟨l, hl, hpl⟩
      rw [h l hl] at hpl
      exact Bool.false_ne_true hpl
    simp [startDebugger, hw]
  · exact (waitForReady_iff stdoutLines).mp

/-- Witness for C8: a log-only stdout keeps the client closed, and a
readiness line is found when present. -/
theorem connect_only_after_ready_witness :
    (startDebugger ⟨none, none⟩ ":8080" ["starting dap server"] []
        = ({ cmd := some (), client := none }, .err "EOF"))
    ∧ (∃ l ∈ ["DAP server listening at 127.0.0.1:8080"],
        goHasPrefix l readyLit = true) :=
  ⟨(connect_only_after_ready ⟨none, none⟩ ":8080" ["starting dap server"] []).1
      (by decide),
    (connect_only_after_ready ⟨none, none⟩ ":8080"
      ["DAP server listening at 127.0.0.1:8080"] []).2 (by decide)⟩

/-- C9: with no subprocess handle, `stopDebugger` returns the
nothing-running success result and leaves the session unchanged; a
successful stop clears the handle, so stopping again right after a stop
also returns the nothing-running result without touching the state. -/
theorem stop_nothing_running_idempotent (ds ds2 : DebuggerSession)
    (k k2 : KillOutcome) (h : ds.cmd = none) :
    stopDebugger ds k = (ds, .ok "No debugger currently executing.")
    ∧ (stopDebugger ds2 KillOutcome.success).1.cmd = none
    ∧ stopDebugger (stopDebugger ds2 KillOutcome.success).1 k2
        = ((stopDebugger ds2 KillOutcome.success).1,
            .ok "No debugger currently executing.") := by
  refine ⟨?_, ?_, ?_⟩
  · simp [stopDebugger, h]
  · cases h2 : ds2.cmd <;> simp [stopDebugger, h2]
  · cases h2 : ds2.cmd <;> simp [stopDebugger, h2]

/-- Witness for C9 at a concrete stopped session. -/
theorem stop_nothing_running_idempotent_witness :
    (⟨none, none⟩ : DebuggerSession).cmd = none
    ∧ (stopDebugger ⟨none, none⟩ KillOutcome.success
          = (⟨none, none⟩, .ok "No debugger currently executing.")
        ∧ (stopDebugger ⟨some (), some newDAPClientFromConn⟩
            KillOutcome.success).1.cmd = none
        ∧ stopDebugger (stopDebugger ⟨some (), some newDAPClientFromConn⟩
              KillOutcome.success).1 KillOutcome.alreadyFinished
            = ((stopDebugger ⟨some (), some newDAPClientFromConn⟩
                KillOutcome.success).1,
                .ok "No debugger currently executing.")) :=
  ⟨rfl, stop_nothing_running_idempotent ⟨none, none⟩
      ⟨some (), some newDAPClientFromConn⟩ KillOutcome.success
      KillOutcome.alreadyFinished rfl⟩

/-- C10: with a connected client, `getStackTrace` sends exactly one
`stackTrace` request whose thread id and start frame are the caller's
values unchanged and whose level count is 20 when the caller passed 0 and
the caller's value otherwise. -/
theorem stack_trace_levels_default (cm : Option Unit) (c : DAPClient)
    (tid sf lv : Int) (stream : List DapMsg) :
    (getStackTrace ⟨cm, some c⟩ tid sf lv stream).1.client
      = some { seq := wrap64 (c.seq + 1),
               sent := c.sent
                 ++ [{ reqType := "request", command := "stackTrace",
                       seq := c.seq,
                       args := .stackTrace tid sf (if lv = 0 then 20 else lv) }] } :=
  rfl
